import Mathlib

/-!
Verification of the liquidation-hunter analysis pipeline
(`liquidation_hunter.py`): a shallow embedding of the signal-derivation
and decision-resolution core, with theorems checking the specification's
claims about it.

Numeric values are modelled as rationals (`ℚ`).  Python's `round(x, n)`
rounds half-to-even on binary floats; it is modelled here as
round-half-up on rationals (`roundTo`), which agrees except at exact
ties, none of which any claim exercises.  Network fetches are modelled
by passing each fetched field as an `Option` argument.
-/

namespace LiquidationHunter

/-- `round(x, n)` from the source: round to `n` decimal places. -/
def roundTo (n : Nat) (x : ℚ) : ℚ := (round (x * (10 : ℚ) ^ n) : ℤ) / (10 : ℚ) ^ n

/-- Python `xs[-n:]`: the last `n` elements (the whole list when it is shorter). -/
def lastN (n : Nat) (xs : List ℚ) : List ℚ := xs.drop (xs.length - n)

/-- Python `xs[-k]` for `1 ≤ k ≤ len(xs)`; out of that range the source code
never evaluates it (guards short-circuit), so a junk value `0` is returned. -/
def back (xs : List ℚ) (k : Nat) : ℚ := xs.getD (xs.length - k) 0

/-- Python `max(xs)`; the source only calls it on non-empty lists
(an empty list raises, caught by the caller). -/
def listMax : List ℚ → ℚ
  | [] => 0
  | x :: r => r.foldl max x

/-- Python `min(xs)`; same remark as `listMax`. -/
def listMin : List ℚ → ℚ
  | [] => 0
  | x :: r => r.foldl min x

/-- `np.mean(xs)` on a non-empty list. -/
def listMean (xs : List ℚ) : ℚ := xs.sum / xs.length

/-- Python falsy-or on a fetched float: `x or d` yields the default when the
value is absent (`None`) or equal to `0.0` (falsy). -/
def orQ (x : Option ℚ) (d : ℚ) : ℚ :=
  match x with
  | none => d
  | some v => if v = 0 then d else v

/-! ## BinanceFetcher: the pure post-fetch computations -/

/-- Result of `BinanceFetcher.get_trades_flow`. -/
structure TradesFlow where
  buys : Nat
  sells : Nat
  ratio : ℚ
deriving DecidableEq

/-- Result of `BinanceFetcher.get_funding_premium`. -/
structure PremiumData where
  mark : ℚ
  index : ℚ
  premium : ℚ
  funding : ℚ
deriving DecidableEq

/-- Result of `BinanceFetcher.get_klines` (the unused `volumes` list is omitted). -/
structure Klines where
  highs : List ℚ
  lows : List ℚ
  closes : List ℚ
deriving DecidableEq

/-- Sum of the quantities of the top five levels of one orderbook side
(`sum(float(q) for _, q in side[:5])`). -/
def sumTop5 (side : List (ℚ × ℚ)) : ℚ := ((side.take 5).map Prod.snd).sum

/-- `BinanceFetcher.get_orderbook_ratio`, given the parsed bid and ask levels. -/
def getOrderbookRatio (bids asks : List (ℚ × ℚ)) : ℚ :=
  let bid_vol := sumTop5 bids
  let ask_vol := sumTop5 asks
  if ask_vol = 0 then 99
  else if bid_vol = 0 then 1 / 100
  else min (roundTo 2 (bid_vol / ask_vol)) 99

/-- `BinanceFetcher.get_trades_flow`, given each trade's `isBuyerMaker` flag
(the last 20 trades).  Python's `if not data` makes an empty list an absence. -/
def getTradesFlow (trades : List Bool) : Option TradesFlow :=
  match trades with
  | [] => none
  | _ =>
    let buys := (trades.filter (fun isBuyerMaker => !isBuyerMaker)).length
    let sells := trades.length - buys
    let buy_ratio := if sells > 0 then (buys : ℚ) / (sells : ℚ) else 99
    some ⟨buys, sells, roundTo 2 buy_ratio⟩

/-- `BinanceFetcher.get_funding_premium`, given the parsed payload fields. -/
def getFundingPremium (mark_price index_price last_funding_rate : ℚ) : PremiumData :=
  let premium_basis := if index_price = 0 then 0 else (mark_price - index_price) / index_price * 100
  ⟨mark_price, index_price, roundTo 4 premium_basis, last_funding_rate * 100⟩

/-! ## TechnicalAnalyzer -/

/-- `float(np.mean(closes[-5:]))` inside `get_ema_trend`. -/
def emaShort (closes : List ℚ) : ℚ := listMean (lastN 5 closes)

/-- `float(np.mean(closes[-10:]))` inside `get_ema_trend`. -/
def emaLong (closes : List ℚ) : ℚ := listMean (lastN 10 closes)

/-- `TechnicalAnalyzer.get_ema_trend` (all call sites use the default
threshold `0.0005`). -/
def getEmaTrend (closes : List ℚ) : ℚ × String :=
  let threshold : ℚ := 5 / 10000
  if closes.length < 10 then (0, "FLAT")
  else
    let s := emaShort closes
    let l := emaLong closes
    if l = 0 then (0, "FLAT")
    else
      let slope := (s - l) / l
      if slope > threshold then (slope, "UP")
      else if slope < -threshold then (slope, "DOWN")
      else (slope, "FLAT")

/-- Result of `TechnicalAnalyzer.get_price_changes`. -/
structure PriceChanges where
  m1 : ℚ
  m5 : ℚ
  m15 : ℚ
deriving DecidableEq

/-- `TechnicalAnalyzer.get_price_changes`: the three guarded percent changes. -/
def getPriceChanges (closes : List ℚ) : PriceChanges :=
  let m1 := if 2 ≤ closes.length ∧ back closes 2 ≠ 0 then
      (back closes 1 - back closes 2) / back closes 2 * 100 else 0
  let m5 := if 5 ≤ closes.length ∧ back closes 5 ≠ 0 then
      (back closes 1 - back closes 5) / back closes 5 * 100 else 0
  let m15 := if 15 ≤ closes.length ∧ back closes 15 ≠ 0 then
      (back closes 1 - back closes 15) / back closes 15 * 100 else 0
  ⟨m1, m5, m15⟩

/-- Result of `TechnicalAnalyzer.get_liquidation_zones`. -/
structure LiqZones where
  near_long_liq : Bool
  near_short_liq : Bool
  recent_high : ℚ
  recent_low : ℚ
  long_liq_distance : ℚ
  short_liq_distance : ℚ
deriving DecidableEq

/-- `TechnicalAnalyzer.get_liquidation_zones`. -/
def getLiquidationZones (highs lows : List ℚ) (current_price : ℚ) : LiqZones :=
  if highs = [] ∨ lows = [] ∨ current_price = 0 then ⟨false, false, 0, 0, 0, 0⟩
  else
    let recent_high := if 10 ≤ highs.length then listMax (lastN 10 highs) else listMax highs
    let recent_low := if 10 ≤ lows.length then listMin (lastN 10 lows) else listMin lows
    let long_liq_distance := if recent_low ≠ 0 then (current_price - recent_low) / recent_low * 100 else 0
    let short_liq_distance := if current_price ≠ 0 then (recent_high - current_price) / current_price * 100 else 0
    ⟨decide (current_price ≤ recent_low * (102 / 100)),
     decide (current_price ≥ recent_high * (98 / 100)),
     recent_high, recent_low, long_liq_distance, short_liq_distance⟩

/-! ## MarketStructureAnalyzer -/

/-- Result of `MarketStructureAnalyzer.get_orderbook_sentiment`. -/
structure ObSentiment where
  bias : String
  sentiment : String
  score : Int
deriving DecidableEq

/-- `MarketStructureAnalyzer.get_orderbook_sentiment`. -/
def getOrderbookSentiment (ratio : ℚ) : ObSentiment :=
  if ratio > 2 then ⟨"STRONG_BID", "BULLISH", 40⟩
  else if ratio > 12 / 10 then ⟨"BID", "BULLISH_BIAS", 20⟩
  else if ratio < 1 / 2 then ⟨"STRONG_ASK", "BEARISH", -40⟩
  else if ratio < 8 / 10 then ⟨"ASK", "BEARISH_BIAS", -20⟩
  else ⟨"NEUTRAL", "NEUTRAL", 0⟩

/-- Result of `MarketStructureAnalyzer.get_premium_sentiment`. -/
structure PremiumSentiment where
  bias : String
  risk : String
  score : Int
deriving DecidableEq

/-- `MarketStructureAnalyzer.get_premium_sentiment`. -/
def getPremiumSentiment (premium : ℚ) : PremiumSentiment :=
  if premium > 1 / 10 then ⟨"LONG_DOMINANT", "SHORT_SQUEEZE", 30⟩
  else if premium > 3 / 100 then ⟨"LONG_BIAS", "POTENTIAL_SQUEEZE", 15⟩
  else if premium < -(1 / 10) then ⟨"SHORT_DOMINANT", "LONG_SQUEEZE", -30⟩
  else if premium < -(3 / 100) then ⟨"SHORT_BIAS", "POTENTIAL_LIQUIDATION", -15⟩
  else ⟨"NEUTRAL", "NO_SQUEEZE", 0⟩

/-- Result of `MarketStructureAnalyzer.detect_squeeze_setups`. -/
structure Setups where
  short_squeeze : Bool
  long_squeeze : Bool
deriving DecidableEq

/-- `MarketStructureAnalyzer.detect_squeeze_setups`. -/
def detectSqueezeSetups (trades : Option TradesFlow) (premium change_5m : ℚ) : Setups :=
  match trades with
  | none => ⟨false, false⟩
  | some t =>
    ⟨decide (t.ratio > 3 ∧ premium > 5 / 100 ∧ change_5m > -(1 / 2)),
     decide (t.sells > t.buys * 3 ∧ premium < -(5 / 100) ∧ change_5m < 1 / 2)⟩

/-- Result of `MarketStructureAnalyzer.detect_liquidity_bait`. -/
structure Bait where
  bait_buy : Bool
  bait_sell : Bool
deriving DecidableEq

/-- `MarketStructureAnalyzer.detect_liquidity_bait`. -/
def detectLiquidityBait (ob_sentiment : String) (trades : Option TradesFlow)
    (change_5m : ℚ) (raw_breakdown failed_high : Bool) : Bait :=
  match trades with
  | none => ⟨false, false⟩
  | some t =>
    ⟨decide (ob_sentiment = "BULLISH" ∧ t.ratio > 2 ∧ change_5m < 0 ∧ ¬raw_breakdown),
     decide (ob_sentiment = "BEARISH" ∧ t.sells > t.buys * 2 ∧ change_5m > 0 ∧ ¬failed_high)⟩

/-- Result of `MarketStructureAnalyzer.detect_reversal_patterns`. -/
structure Patterns where
  overbought_reversal : Bool
  oversold_reversal : Bool
  bid_liquidity_trap : Bool
  ask_liquidity_trap : Bool
  bid_vs_premium_conflict : Bool
  ask_vs_premium_conflict : Bool
  extreme_overbought_cascade : Bool
  extreme_oversold_cascade : Bool
deriving DecidableEq

/-- `MarketStructureAnalyzer.detect_reversal_patterns`. -/
def detectReversalPatterns (change_24h : ℚ) (raw_breakdown : Bool)
    (near_long_liq near_short_liq : Bool) (premium : ℚ)
    (ob_bias premium_bias : String) (price_change_5m : ℚ) : Patterns :=
  ⟨decide (change_24h > 30 ∧ raw_breakdown ∧ near_long_liq ∧ premium < -(2 / 10)),
   decide (change_24h < -20 ∧ ¬raw_breakdown ∧ near_short_liq ∧ premium > 2 / 10),
   decide (ob_bias = "STRONG_BID" ∧ (premium_bias = "SHORT_DOMINANT" ∨ premium_bias = "SHORT_BIAS") ∧
     price_change_5m < 0 ∧ (raw_breakdown ∨ near_long_liq)),
   decide (ob_bias = "STRONG_ASK" ∧ (premium_bias = "LONG_DOMINANT" ∨ premium_bias = "LONG_BIAS") ∧
     price_change_5m > 0 ∧ (¬raw_breakdown ∨ near_short_liq)),
   decide ((ob_bias = "STRONG_BID" ∨ ob_bias = "BID") ∧
     (premium_bias = "SHORT_DOMINANT" ∨ premium_bias = "SHORT_BIAS")),
   decide ((ob_bias = "STRONG_ASK" ∨ ob_bias = "ASK") ∧
     (premium_bias = "LONG_DOMINANT" ∨ premium_bias = "LONG_BIAS")),
   decide (change_24h > 50 ∧ raw_breakdown ∧ near_long_liq ∧ premium < -(1 / 2)),
   decide (change_24h < -40 ∧ ¬raw_breakdown ∧ near_short_liq ∧ premium > 1 / 2)⟩

/-! ## DecisionEngine -/

/-- The structural booleans passed as `data['structure']` to the decision
engine (`struct` here, since `structure` is a Lean keyword). -/
structure StructureFlags where
  raw_breakdown : Bool
  failed_high : Bool
  price_change_5m : ℚ
deriving DecidableEq

/-- The `decision_data` dictionary assembled by `analyze_symbol` and consumed
by `DecisionEngine.evaluate`. -/
structure DecisionData where
  change_24h : ℚ
  ob : ObSentiment
  premium : PremiumSentiment
  setups : Setups
  bait : Bait
  patterns : Patterns
  ema_trend : String
  liq_zones : LiqZones
  struct : StructureFlags
deriving DecidableEq

/-- The decision record built by `DecisionEngine._set_decision` /
`DecisionEngine._get_result`. -/
structure Decision where
  opinion : String
  reason : String
  confidence : String
  liquidation_alert : String
  valid_breakdown : Bool
  fake_breakdown : Bool
deriving DecidableEq

namespace DecisionEngine

/-- The `if/elif` priority chain of `DecisionEngine.evaluate`, before the
anti-countertrend filters.  Each branch is one `_set_decision` call
(unspecified breakdown flags default to `false` there). -/
def evaluateBase (d : DecisionData) : Decision :=
  if d.patterns.extreme_overbought_cascade then
    ⟨"SHORT", "EXTREME_OVERBOUGHT_CASCADE_REVERSAL", "VERY_HIGH", "💀 EXTREME OVERBOUGHT - MAJOR TOP", true, false⟩
  else if d.patterns.extreme_oversold_cascade then
    ⟨"LONG", "EXTREME_OVERSOLD_CASCADE_REVERSAL", "VERY_HIGH", "💀 EXTREME OVERSOLD - MAJOR BOTTOM", false, true⟩
  else if d.patterns.overbought_reversal then
    ⟨"SHORT", "OVERBOUGHT_TOP_REVERSAL", "VERY_HIGH", "🚨 TOP FORMATION - REVERSAL", true, false⟩
  else if d.patterns.oversold_reversal then
    ⟨"LONG", "OVERSOLD_BOTTOM_REVERSAL", "VERY_HIGH", "🚨 BOTTOM FORMATION - REVERSAL", false, true⟩
  else if d.patterns.bid_liquidity_trap then
    ⟨"SHORT", "BID_LIQUIDITY_TRAP_DISTRIBUTION", "HIGH", "🎯 BID DOMINANT TAPI PREMIUM NEGATIF - DISTRIBUTION", true, false⟩
  else if d.patterns.ask_liquidity_trap then
    ⟨"LONG", "ASK_LIQUIDITY_TRAP_ABSORPTION", "HIGH", "🎯 ASK DOMINANT TAPI PREMIUM POSITIF - ABSORPTION", false, true⟩
  else if d.patterns.bid_vs_premium_conflict then
    ⟨"SHORT", "CONFLICT_BID_VS_PREMIUM_PREMIUM_WINS", "MEDIUM", "⚠️ BID DOMINANT TAPI SHORT PREMIUM - FOLLOW PREMIUM", d.struct.raw_breakdown, false⟩
  else if d.patterns.ask_vs_premium_conflict then
    ⟨"LONG", "CONFLICT_ASK_VS_PREMIUM_PREMIUM_WINS", "MEDIUM", "⚠️ ASK DOMINANT TAPI LONG PREMIUM - FOLLOW PREMIUM", false, !d.struct.raw_breakdown⟩
  else if d.setups.short_squeeze then
    ⟨"LONG", "SHORT_SQUEEZE_BUILDUP", "VERY_HIGH", "🔥 SHORT SQUEEZE IMMINENT", false, true⟩
  else if d.setups.long_squeeze then
    ⟨"SHORT", "LONG_SQUEEZE_BUILDUP", "VERY_HIGH", "🔥 LONG SQUEEZE IMMINENT", true, false⟩
  else if d.bait.bait_buy then
    ⟨"LONG", "LIQUIDITY_BAIT_ABSORPTION", "HIGH", "🎯 BUY LIQUIDITY BAIT DETECTED", false, true⟩
  else if d.bait.bait_sell then
    ⟨"SHORT", "LIQUIDITY_BAIT_DISTRIBUTION", "HIGH", "🎯 SELL LIQUIDITY BAIT DETECTED", true, false⟩
  else if d.ob.bias == "STRONG_BID" then
    ⟨"LONG", "STRONG_BUY_PRESSURE", "HIGH", "📊 EXTREME BID DOMINANCE", false, false⟩
  else if d.ob.bias == "STRONG_ASK" then
    ⟨"SHORT", "STRONG_SELL_PRESSURE", "HIGH", "📊 EXTREME ASK DOMINANCE", false, false⟩
  else if d.premium.bias == "LONG_DOMINANT" && d.ob.sentiment == "BULLISH" then
    ⟨"LONG", "PREMIUM_OB_CONFIRMATION", "HIGH", "💰 LONG DOMINANT CONFIRMED", false, false⟩
  else if d.premium.bias == "SHORT_DOMINANT" && d.ob.sentiment == "BEARISH" then
    ⟨"SHORT", "PREMIUM_OB_CONFIRMATION", "HIGH", "💰 SHORT DOMINANT CONFIRMED", false, false⟩
  else if d.ema_trend == "UP" && d.ob.sentiment != "BEARISH" then
    ⟨"LONG", "EMA_UPTREND_CONFIRMATION", "MEDIUM", "📈 UPTREND STRUCTURE", false, false⟩
  else if d.ema_trend == "DOWN" && d.ob.sentiment != "BULLISH" then
    ⟨"SHORT", "EMA_DOWNTREND_CONFIRMATION", "MEDIUM", "📉 DOWNTREND STRUCTURE", false, false⟩
  else if d.liq_zones.near_long_liq && d.ob.sentiment == "BEARISH" then
    ⟨"SHORT", "LONG_LIQ_CASCADE", "MEDIUM", "⚠️ LONG LIQUIDATION ZONE", true, false⟩
  else if d.liq_zones.near_short_liq && d.ob.sentiment == "BULLISH" then
    ⟨"LONG", "SHORT_LIQ_CASCADE", "MEDIUM", "⚠️ SHORT LIQUIDATION ZONE", false, true⟩
  else if d.ob.sentiment == "BULLISH_BIAS" then
    ⟨"LONG", "OB_BUY_PRESSURE", "LOW", "📊 BID DOMINANT", false, false⟩
  else if d.ob.sentiment == "BEARISH_BIAS" then
    ⟨"SHORT", "OB_SELL_PRESSURE", "LOW", "📊 ASK DOMINANT", false, false⟩
  else
    ⟨"NEUTRAL", "NO_CLEAR_SIGNAL", "LOW", "⚪ NO SIGNAL", false, false⟩

/-- `DecisionEngine._apply_filters`: the two anti-countertrend override
filters, implemented as two independent `if` checks in sequence. -/
def applyFilters (d : DecisionData) (dec : Decision) : Decision :=
  let dec1 :=
    if dec.opinion = "SHORT" ∧ d.change_24h < -10 ∧ d.ob.sentiment = "BULLISH" ∧
        ¬d.struct.raw_breakdown then
      { dec with opinion := "LONG", reason := "ANTI_OVERSOLD_SHORT_" ++ dec.reason,
                 fake_breakdown := true }
    else dec
  if dec1.opinion = "LONG" ∧ d.change_24h > 10 ∧ d.ob.sentiment = "BEARISH" ∧
      d.struct.raw_breakdown then
    { dec1 with opinion := "SHORT", reason := "ANTI_OVERBOUGHT_LONG_" ++ dec1.reason,
                valid_breakdown := true }
  else dec1

/-- `DecisionEngine.evaluate`: priority chain, then the filters. -/
def evaluate (d : DecisionData) : Decision := applyFilters d (evaluateBase d)

end DecisionEngine

/-! ## analyze_symbol -/

/-- Python `max(highs[-10:]) if len(highs) >= 10 else max(highs)` from
`analyze_symbol` (`prev_high`). -/
def prevHigh (highs : List ℚ) : ℚ :=
  if 10 ≤ highs.length then listMax (lastN 10 highs) else listMax highs

/-- Python `min(lows[-10:]) if len(lows) >= 10 else min(lows)` from
`analyze_symbol` (`prev_low`). -/
def prevLow (lows : List ℚ) : ℚ :=
  if 10 ≤ lows.length then listMin (lastN 10 lows) else listMin lows

/-- The snapshot dictionary assembled by `analyze_symbol`.  The wall-clock
`time` field is omitted (not derivable from the inputs). -/
structure Snapshot where
  symbol : String
  price : ℚ
  ob_ratio : ℚ
  ob_bias : String
  ob_sentiment : String
  buy_sell_ratio : ℚ
  buys : Nat
  sells : Nat
  premium : ℚ
  premium_bias : String
  premium_risk : String
  funding_rate : ℚ
  ema_slope : ℚ
  ema_trend : String
  change_24h : ℚ
  change_1m : ℚ
  change_5m : ℚ
  change_15m : ℚ
  failed_high : Bool
  raw_breakdown : Bool
  near_long_liq : Bool
  near_short_liq : Bool
  long_liq_distance : ℚ
  short_liq_distance : ℚ
  is_short_squeeze : Bool
  is_long_squeeze : Bool
  liquidity_bait_buy : Bool
  liquidity_bait_sell : Bool
  overbought_reversal : Bool
  oversold_reversal : Bool
  bid_liquidity_trap : Bool
  ask_liquidity_trap : Bool
  bid_vs_premium_conflict : Bool
  ask_vs_premium_conflict : Bool
  extreme_overbought_cascade : Bool
  extreme_oversold_cascade : Bool
  opinion : String
  reason : String
  confidence : String
  liquidation_alert : String
  valid_breakdown : Bool
  fake_breakdown : Bool
deriving DecidableEq

/-- The `decision_data` dictionary of `analyze_symbol`, computed from the
defaulted fetch results (extracted as a definition so theorems can refer to
the decision inputs `analyze_symbol` builds). -/
def decisionDataOf (change_24h ob_ratio : ℚ) (trades : TradesFlow)
    (premium : ℚ) (highs lows closes : List ℚ) (price : ℚ) : DecisionData :=
  let current_close := if closes = [] then price else back closes 1
  let prev_high := prevHigh highs
  let prev_low := prevLow lows
  let price_changes := getPriceChanges closes
  let et := getEmaTrend closes
  let liq_zones := getLiquidationZones highs lows current_close
  let ob_sentiment := getOrderbookSentiment ob_ratio
  let premium_sentiment := getPremiumSentiment premium
  let squeeze_setups := detectSqueezeSetups (some trades) premium price_changes.m5
  let bait_patterns := detectLiquidityBait ob_sentiment.sentiment (some trades)
    price_changes.m5 (decide (current_close < prev_low)) (decide (current_close < prev_high))
  let reversal_patterns := detectReversalPatterns change_24h
    (decide (current_close < prev_low)) liq_zones.near_long_liq liq_zones.near_short_liq
    premium ob_sentiment.bias premium_sentiment.bias price_changes.m5
  ⟨change_24h, ob_sentiment, premium_sentiment, squeeze_setups, bait_patterns,
   reversal_patterns, et.2, liq_zones,
   ⟨decide (current_close < prev_low), decide (current_close < prev_high), price_changes.m5⟩⟩

/-- `analyze_symbol`, as a function of the per-field fetch results (the
network layer is the boundary; the unused `depth` fetch is omitted).
Missing price yields no snapshot; every other absence is defaulted.
Python's `max`/`min` on an empty klines list raises, and the surrounding
`except` then returns `None`; that path is the final `none` guard. -/
def analyzeSymbol (symbol : String) (price0 change0 ob0 : Option ℚ)
    (trades0 : Option TradesFlow) (premium0 : Option PremiumData)
    (klines0 : Option Klines) : Option Snapshot :=
  match price0 with
  | none => none
  | some price =>
    let change_24h := orQ change0 0
    let ob_ratio := orQ ob0 1
    let trades := trades0.getD ⟨0, 0, 1⟩
    let premium_data := premium0.getD ⟨price, price, 0, 0⟩
    let klines := klines0.getD
      ⟨[price * (101 / 100), price], [price * (99 / 100), price], [price, price]⟩
    let highs := klines.highs
    let lows := klines.lows
    let closes := klines.closes
    if highs = [] ∨ lows = [] then none
    else
      let current_close := if closes = [] then price else back closes 1
      let prev_high := prevHigh highs
      let prev_low := prevLow lows
      let price_changes := getPriceChanges closes
      let et := getEmaTrend closes
      let liq_zones := getLiquidationZones highs lows current_close
      let ob_sentiment := getOrderbookSentiment ob_ratio
      let premium_sentiment := getPremiumSentiment premium_data.premium
      let squeeze_setups := detectSqueezeSetups (some trades) premium_data.premium price_changes.m5
      let bait_patterns := detectLiquidityBait ob_sentiment.sentiment (some trades)
        price_changes.m5 (decide (current_close < prev_low)) (decide (current_close < prev_high))
      let reversal_patterns := detectReversalPatterns change_24h
        (decide (current_close < prev_low)) liq_zones.near_long_liq liq_zones.near_short_liq
        premium_data.premium ob_sentiment.bias premium_sentiment.bias price_changes.m5
      let dd := decisionDataOf change_24h ob_ratio trades premium_data.premium
        highs lows closes price
      let decision := DecisionEngine.evaluate dd
      some
        { symbol := symbol
          price := if price = 0 then 0 else roundTo 2 price
          ob_ratio := ob_ratio
          ob_bias := ob_sentiment.bias
          ob_sentiment := ob_sentiment.sentiment
          buy_sell_ratio := trades.ratio
          buys := trades.buys
          sells := trades.sells
          premium := premium_data.premium
          premium_bias := premium_sentiment.bias
          premium_risk := premium_sentiment.risk
          funding_rate := premium_data.funding
          ema_slope := roundTo 6 et.1
          ema_trend := et.2
          change_24h := roundTo 2 change_24h
          change_1m := roundTo 2 price_changes.m1
          change_5m := roundTo 2 price_changes.m5
          change_15m := roundTo 2 price_changes.m15
          failed_high := decide (current_close < prev_high)
          raw_breakdown := decide (current_close < prev_low)
          near_long_liq := liq_zones.near_long_liq
          near_short_liq := liq_zones.near_short_liq
          long_liq_distance := roundTo 2 liq_zones.long_liq_distance
          short_liq_distance := roundTo 2 liq_zones.short_liq_distance
          is_short_squeeze := squeeze_setups.short_squeeze
          is_long_squeeze := squeeze_setups.long_squeeze
          liquidity_bait_buy := bait_patterns.bait_buy
          liquidity_bait_sell := bait_patterns.bait_sell
          overbought_reversal := reversal_patterns.overbought_reversal
          oversold_reversal := reversal_patterns.oversold_reversal
          bid_liquidity_trap := reversal_patterns.bid_liquidity_trap
          ask_liquidity_trap := reversal_patterns.ask_liquidity_trap
          bid_vs_premium_conflict := reversal_patterns.bid_vs_premium_conflict
          ask_vs_premium_conflict := reversal_patterns.ask_vs_premium_conflict
          extreme_overbought_cascade := reversal_patterns.extreme_overbought_cascade
          extreme_oversold_cascade := reversal_patterns.extreme_oversold_cascade
          opinion := decision.opinion
          reason := decision.reason
          confidence := decision.confidence
          liquidation_alert := decision.liquidation_alert
          valid_breakdown := decision.valid_breakdown
          fake_breakdown := decision.fake_breakdown }

/-! ## Specification-side definitions

These follow the specification's words (not the source) and exist to be
compared against the source-derived definitions above. -/

/-- One rule of the specification's priority table: a guard and the outcome
it produces. -/
structure Rule where
  cond : DecisionData → Bool
  outcome : DecisionData → Decision

/-- First-match-wins resolution over an ordered rule table, as the
specification describes the resolver: walk the rules in order, the first
true guard's outcome is produced, otherwise the default. -/
def resolveFirstMatch : List Rule → Decision → DecisionData → Decision
  | [], dflt, _ => dflt
  | r :: rest, dflt, d => if r.cond d then r.outcome d else resolveFirstMatch rest dflt d

/-- The specification's default outcome: NEUTRAL / LOW / NO_CLEAR_SIGNAL. -/
def noSignalDecision : Decision := ⟨"NEUTRAL", "NO_CLEAR_SIGNAL", "LOW", "⚪ NO SIGNAL", false, false⟩

/-- The specification's 22-rule priority table, in the exact order the claim
states (priority 0 sub-order first, then priorities 1–7). -/
def priorityTable : List Rule := [
  ⟨fun d => d.patterns.extreme_overbought_cascade,
   fun _ => ⟨"SHORT", "EXTREME_OVERBOUGHT_CASCADE_REVERSAL", "VERY_HIGH", "💀 EXTREME OVERBOUGHT - MAJOR TOP", true, false⟩⟩,
  ⟨fun d => d.patterns.extreme_oversold_cascade,
   fun _ => ⟨"LONG", "EXTREME_OVERSOLD_CASCADE_REVERSAL", "VERY_HIGH", "💀 EXTREME OVERSOLD - MAJOR BOTTOM", false, true⟩⟩,
  ⟨fun d => d.patterns.overbought_reversal,
   fun _ => ⟨"SHORT", "OVERBOUGHT_TOP_REVERSAL", "VERY_HIGH", "🚨 TOP FORMATION - REVERSAL", true, false⟩⟩,
  ⟨fun d => d.patterns.oversold_reversal,
   fun _ => ⟨"LONG", "OVERSOLD_BOTTOM_REVERSAL", "VERY_HIGH", "🚨 BOTTOM FORMATION - REVERSAL", false, true⟩⟩,
  ⟨fun d => d.patterns.bid_liquidity_trap,
   fun _ => ⟨"SHORT", "BID_LIQUIDITY_TRAP_DISTRIBUTION", "HIGH", "🎯 BID DOMINANT TAPI PREMIUM NEGATIF - DISTRIBUTION", true, false⟩⟩,
  ⟨fun d => d.patterns.ask_liquidity_trap,
   fun _ => ⟨"LONG", "ASK_LIQUIDITY_TRAP_ABSORPTION", "HIGH", "🎯 ASK DOMINANT TAPI PREMIUM POSITIF - ABSORPTION", false, true⟩⟩,
  ⟨fun d => d.patterns.bid_vs_premium_conflict,
   fun d => ⟨"SHORT", "CONFLICT_BID_VS_PREMIUM_PREMIUM_WINS", "MEDIUM", "⚠️ BID DOMINANT TAPI SHORT PREMIUM - FOLLOW PREMIUM", d.struct.raw_breakdown, false⟩⟩,
  ⟨fun d => d.patterns.ask_vs_premium_conflict,
   fun d => ⟨"LONG", "CONFLICT_ASK_VS_PREMIUM_PREMIUM_WINS", "MEDIUM", "⚠️ ASK DOMINANT TAPI LONG PREMIUM - FOLLOW PREMIUM", false, !d.struct.raw_breakdown⟩⟩,
  ⟨fun d => d.setups.short_squeeze,
   fun _ => ⟨"LONG", "SHORT_SQUEEZE_BUILDUP", "VERY_HIGH", "🔥 SHORT SQUEEZE IMMINENT", false, true⟩⟩,
  ⟨fun d => d.setups.long_squeeze,
   fun _ => ⟨"SHORT", "LONG_SQUEEZE_BUILDUP", "VERY_HIGH", "🔥 LONG SQUEEZE IMMINENT", true, false⟩⟩,
  ⟨fun d => d.bait.bait_buy,
   fun _ => ⟨"LONG", "LIQUIDITY_BAIT_ABSORPTION", "HIGH", "🎯 BUY LIQUIDITY BAIT DETECTED", false, true⟩⟩,
  ⟨fun d => d.bait.bait_sell,
   fun _ => ⟨"SHORT", "LIQUIDITY_BAIT_DISTRIBUTION", "HIGH", "🎯 SELL LIQUIDITY BAIT DETECTED", true, false⟩⟩,
  ⟨fun d => d.ob.bias == "STRONG_BID",
   fun _ => ⟨"LONG", "STRONG_BUY_PRESSURE", "HIGH", "📊 EXTREME BID DOMINANCE", false, false⟩⟩,
  ⟨fun d => d.ob.bias == "STRONG_ASK",
   fun _ => ⟨"SHORT", "STRONG_SELL_PRESSURE", "HIGH", "📊 EXTREME ASK DOMINANCE", false, false⟩⟩,
  ⟨fun d => d.premium.bias == "LONG_DOMINANT" && d.ob.sentiment == "BULLISH",
   fun _ => ⟨"LONG", "PREMIUM_OB_CONFIRMATION", "HIGH", "💰 LONG DOMINANT CONFIRMED", false, false⟩⟩,
  ⟨fun d => d.premium.bias == "SHORT_DOMINANT" && d.ob.sentiment == "BEARISH",
   fun _ => ⟨"SHORT", "PREMIUM_OB_CONFIRMATION", "HIGH", "💰 SHORT DOMINANT CONFIRMED", false, false⟩⟩,
  ⟨fun d => d.ema_trend == "UP" && d.ob.sentiment != "BEARISH",
   fun _ => ⟨"LONG", "EMA_UPTREND_CONFIRMATION", "MEDIUM", "📈 UPTREND STRUCTURE", false, false⟩⟩,
  ⟨fun d => d.ema_trend == "DOWN" && d.ob.sentiment != "BULLISH",
   fun _ => ⟨"SHORT", "EMA_DOWNTREND_CONFIRMATION", "MEDIUM", "📉 DOWNTREND STRUCTURE", false, false⟩⟩,
  ⟨fun d => d.liq_zones.near_long_liq && d.ob.sentiment == "BEARISH",
   fun _ => ⟨"SHORT", "LONG_LIQ_CASCADE", "MEDIUM", "⚠️ LONG LIQUIDATION ZONE", true, false⟩⟩,
  ⟨fun d => d.liq_zones.near_short_liq && d.ob.sentiment == "BULLISH",
   fun _ => ⟨"LONG", "SHORT_LIQ_CASCADE", "MEDIUM", "⚠️ SHORT LIQUIDATION ZONE", false, true⟩⟩,
  ⟨fun d => d.ob.sentiment == "BULLISH_BIAS",
   fun _ => ⟨"LONG", "OB_BUY_PRESSURE", "LOW", "📊 BID DOMINANT", false, false⟩⟩,
  ⟨fun d => d.ob.sentiment == "BEARISH_BIAS",
   fun _ => ⟨"SHORT", "OB_SELL_PRESSURE", "LOW", "📊 ASK DOMINANT", false, false⟩⟩]

/-- The recent low computed over the window preceding the latest candle, as
claim C4 words it (the latest candle's own low excluded). -/
def prevLowExcludingLatest (lows : List ℚ) : ℚ := prevLow lows.dropLast

/-- The recent high over the window preceding the latest candle (claim C4's
wording for `failed_high`, latest candle excluded). -/
def prevHighExcludingLatest (highs : List ℚ) : ℚ := prevHigh highs.dropLast

/-! ## Helper lemmas -/

theorem foldl_min_le (xs : List ℚ) (b : ℚ) : List.foldl min b xs ≤ b := by
  induction xs generalizing b with
  | nil => simp
  | cons x r ih => exact le_trans (ih (min b x)) (min_le_left b x)

theorem foldl_min_le_mem (xs : List ℚ) : ∀ b a : ℚ, a ∈ xs → List.foldl min b xs ≤ a := by
  induction xs with
  | nil => intro _ _ h; cases h
  | cons x r ih =>
    intro b a h
    rcases List.mem_cons.mp h with rfl | h2
    · exact le_trans (foldl_min_le r (min b a)) (min_le_right b a)
    · exact ih (min b x) a h2

theorem listMin_le_of_mem {xs : List ℚ} {a : ℚ} (h : a ∈ xs) : listMin xs ≤ a := by
  cases xs with
  | nil => cases h
  | cons x r =>
    rcases List.mem_cons.mp h with rfl | h2
    · exact foldl_min_le r a
    · exact foldl_min_le_mem r x a h2

theorem getLast_eq_getLast_drop (xs : List ℚ) (h : xs ≠ []) (j : Nat) (hj : j < xs.length)
    (hd : xs.drop j ≠ []) : xs.getLast h = (xs.drop j).getLast hd := by
  have h1 : xs.getLast? = some (xs.getLast h) := List.getLast?_eq_getLast xs h
  have h2 : (xs.drop j).getLast? = some ((xs.drop j).getLast hd) :=
    List.getLast?_eq_getLast _ hd
  obtain ⟨t, ht⟩ := List.drop_suffix j xs
  have h3 : xs.getLast? = (xs.drop j).getLast? := by
    conv_lhs => rw [← ht]
    rw [List.getLast?_append, h2]
    rfl
  rw [h3, h2] at h1
  exact (Option.some.inj h1).symm

theorem getLast_mem_drop (xs : List ℚ) (h : xs ≠ []) (j : Nat) (hj : j < xs.length) :
    xs.getLast h ∈ xs.drop j := by
  have hd : xs.drop j ≠ [] := by
    apply List.ne_nil_of_length_pos
    simp only [List.length_drop]
    omega
  rw [getLast_eq_getLast_drop xs h j hj hd]
  exact List.getLast_mem hd

theorem prevLow_le_getLast (lows : List ℚ) (h : lows ≠ []) :
    prevLow lows ≤ lows.getLast h := by
  unfold prevLow lastN
  split_ifs with h10
  · exact listMin_le_of_mem (getLast_mem_drop lows h (lows.length - 10) (by omega))
  · exact listMin_le_of_mem (List.getLast_mem h)

theorem getLastD_eq_getLast (xs : List ℚ) (h : xs ≠ []) : xs.getLastD 0 = xs.getLast h := by
  rw [List.getLastD_eq_getLast?, List.getLast?_eq_getLast xs h, Option.getD_some]

theorem back_one_eq_getLast (xs : List ℚ) (h : xs ≠ []) : back xs 1 = xs.getLast h := by
  have hl : 0 < xs.length := List.length_pos.mpr h
  unfold back
  rw [List.getD_eq_getElem?_getD, List.getElem?_eq_getElem (by omega), Option.getD_some,
    List.getLast_eq_getElem]

theorem back_one_eq_getLastD (xs : List ℚ) (h : xs ≠ []) : back xs 1 = xs.getLastD 0 := by
  rw [back_one_eq_getLast xs h, getLastD_eq_getLast xs h]

theorem prevLow_le_getLastD (lows : List ℚ) (h : lows ≠ []) :
    prevLow lows ≤ lows.getLastD 0 := by
  rw [getLastD_eq_getLast lows h]
  exact prevLow_le_getLast lows h

theorem getLastD_mem_lastN (xs : List ℚ) (h : xs ≠ []) (n : Nat) (hn : 1 ≤ n) :
    xs.getLastD 0 ∈ lastN n xs := by
  rw [getLastD_eq_getLast xs h]
  unfold lastN
  have hp := List.length_pos.mpr h
  exact getLast_mem_drop xs h (xs.length - n) (by omega)

/-- Python `xs[-k]` agrees with position `k-1` of the reversed list whenever
`1 ≤ k ≤ len xs`. -/
theorem back_eq_reverse_getD (xs : List ℚ) (k : Nat) (h1 : 1 ≤ k) (h2 : k ≤ xs.length) :
    back xs k = xs.reverse.getD (k - 1) 0 := by
  unfold back
  have hk : xs.length - k < xs.length := by omega
  have hk2 : k - 1 < xs.reverse.length := by simp; omega
  rw [List.getD_eq_getElem?_getD, List.getElem?_eq_getElem hk, Option.getD_some,
    List.getD_eq_getElem?_getD, List.getElem?_eq_getElem hk2, Option.getD_some,
    List.getElem_reverse]
  congr 1
  omega

/-- After the first anti-countertrend filter fires, the second cannot: the two
24h-change thresholds are contradictory.  The result of `_apply_filters` is
always the input decision, its anti-oversold rewrite, or its anti-overbought
rewrite. -/
theorem applyFilters_cases (d : DecisionData) (dec : Decision) :
    DecisionEngine.applyFilters d dec = dec ∨
    DecisionEngine.applyFilters d dec =
      { dec with opinion := "LONG", reason := "ANTI_OVERSOLD_SHORT_" ++ dec.reason,
                 fake_breakdown := true } ∨
    DecisionEngine.applyFilters d dec =
      { dec with opinion := "SHORT", reason := "ANTI_OVERBOUGHT_LONG_" ++ dec.reason,
                 valid_breakdown := true } := by
  simp only [DecisionEngine.applyFilters]
  split_ifs with h1 h2 h3
  · exfalso
    have ha := h1.2.1
    have hb := h2.2.1
    linarith
  · exact Or.inr (Or.inl rfl)
  · exact Or.inr (Or.inr rfl)
  · exact Or.inl rfl

/-- If the shared `raw_breakdown` flag is false, the anti-overbought filter
cannot fire, so `_apply_filters` either leaves the decision alone or applies
the anti-oversold rewrite. -/
theorem applyFilters_of_not_raw_breakdown (d : DecisionData) (dec : Decision)
    (h : d.struct.raw_breakdown = false) :
    DecisionEngine.applyFilters d dec = dec ∨
    DecisionEngine.applyFilters d dec =
      { dec with opinion := "LONG", reason := "ANTI_OVERSOLD_SHORT_" ++ dec.reason,
                 fake_breakdown := true } := by
  simp only [DecisionEngine.applyFilters]
  split_ifs with h1 h2 h3
  · exact absurd h2.2.2.2 (by simp [h])
  · exact Or.inr rfl
  · exact absurd h3.2.2.2 (by simp [h])
  · exact Or.inl rfl

/-- First-match resolution only produces opinions drawn from the default and
from the rules' outcomes. -/
theorem resolveFirstMatch_opinion (rules : List Rule) (dflt : Decision) (d : DecisionData)
    (hd : dflt.opinion = "LONG" ∨ dflt.opinion = "SHORT" ∨ dflt.opinion = "NEUTRAL")
    (hr : ∀ r ∈ rules, (r.outcome d).opinion = "LONG" ∨ (r.outcome d).opinion = "SHORT" ∨
      (r.outcome d).opinion = "NEUTRAL") :
    (resolveFirstMatch rules dflt d).opinion = "LONG" ∨
    (resolveFirstMatch rules dflt d).opinion = "SHORT" ∨
    (resolveFirstMatch rules dflt d).opinion = "NEUTRAL" := by
  induction rules with
  | nil => exact hd
  | cons r rest ih =>
    rw [resolveFirstMatch]
    by_cases hc : r.cond d = true
    · rw [if_pos hc]
      exact hr r (List.mem_cons_self r rest)
    · rw [if_neg hc]
      exact ih (fun s hs => hr s (List.mem_cons_of_mem r hs))

/-- The base priority chain only ever produces LONG, SHORT or NEUTRAL. -/
theorem evaluateBase_opinion (d : DecisionData) :
    (DecisionEngine.evaluateBase d).opinion = "LONG" ∨
    (DecisionEngine.evaluateBase d).opinion = "SHORT" ∨
    (DecisionEngine.evaluateBase d).opinion = "NEUTRAL" := by
  have hb : DecisionEngine.evaluateBase d = resolveFirstMatch priorityTable noSignalDecision d :=
    rfl
  rw [hb]
  apply resolveFirstMatch_opinion
  · exact Or.inr (Or.inr rfl)
  · intro r hr
    simp only [priorityTable, List.mem_cons, List.not_mem_nil, or_false] at hr
    rcases hr with rfl|rfl|rfl|rfl|rfl|rfl|rfl|rfl|rfl|rfl|rfl|rfl|rfl|rfl|rfl|rfl|rfl|rfl|rfl|rfl|rfl|rfl
    all_goals simp

/-! ## Claim theorems -/

/-- Claim C1: `DecisionEngine.evaluate` selects exactly one base outcome by a
strict first-true-condition-wins priority chain in the exact stated order
(equal to first-match resolution over the ordered 22-rule table with the
NEUTRAL/LOW/NO_CLEAR_SIGNAL default), and the resulting opinion is always
exactly one of LONG, SHORT, NEUTRAL. -/
theorem C1_priority_chain :
    (∀ d : DecisionData,
      DecisionEngine.evaluateBase d = resolveFirstMatch priorityTable noSignalDecision d) ∧
    (∀ d : DecisionData,
      (DecisionEngine.evaluate d).opinion = "LONG" ∨
      (DecisionEngine.evaluate d).opinion = "SHORT" ∨
      (DecisionEngine.evaluate d).opinion = "NEUTRAL") := by
  constructor
  · intro d
    rfl
  · intro d
    have hcases := applyFilters_cases d (DecisionEngine.evaluateBase d)
    rcases hcases with h | h | h
    · rw [DecisionEngine.evaluate, h]
      exact evaluateBase_opinion d
    · rw [DecisionEngine.evaluate, h]
      exact Or.inl rfl
    · rw [DecisionEngine.evaluate, h]
      exact Or.inr (Or.inl rfl)

/-- Claim C2: the post-resolution anti-oversold filter (applied after every
rule, not as part of the chain) rewrites a SHORT decision to LONG with the
`ANTI_OVERSOLD_SHORT_` reason prefix and forces `fake_breakdown` whenever the
24h change is below −10, orderbook sentiment is BULLISH and `raw_breakdown`
is false; the symmetric anti-overbought filter acts analogously as an
independent check. -/
theorem C2_anti_filters :
    (∀ d : DecisionData,
      DecisionEngine.evaluate d = DecisionEngine.applyFilters d (DecisionEngine.evaluateBase d)) ∧
    (∀ (d : DecisionData) (dec : Decision),
      dec.opinion = "SHORT" → d.change_24h < -10 → d.ob.sentiment = "BULLISH" →
      d.struct.raw_breakdown = false →
      DecisionEngine.applyFilters d dec =
        { dec with opinion := "LONG", reason := "ANTI_OVERSOLD_SHORT_" ++ dec.reason,
                   fake_breakdown := true }) ∧
    (∀ (d : DecisionData) (dec : Decision),
      dec.opinion = "LONG" → 10 < d.change_24h → d.ob.sentiment = "BEARISH" →
      d.struct.raw_breakdown = true →
      DecisionEngine.applyFilters d dec =
        { dec with opinion := "SHORT", reason := "ANTI_OVERBOUGHT_LONG_" ++ dec.reason,
                   valid_breakdown := true }) := by
  refine ⟨fun d => rfl, ?_, ?_⟩
  · intro d dec hop hch hs hrb
    have hc1 : dec.opinion = "SHORT" ∧ d.change_24h < -10 ∧ d.ob.sentiment = "BULLISH" ∧
        ¬(d.struct.raw_breakdown = true) := ⟨hop, hch, hs, by simp [hrb]⟩
    simp only [DecisionEngine.applyFilters]
    rw [if_pos hc1, if_neg]
    rintro ⟨-, hgt, -, -⟩
    linarith
  · intro d dec hop hch hs hrb
    have hc1 : ¬(dec.opinion = "SHORT" ∧ d.change_24h < -10 ∧ d.ob.sentiment = "BULLISH" ∧
        ¬(d.struct.raw_breakdown = true)) := by
      rintro ⟨h, -⟩
      rw [hop] at h
      exact absurd h (by decide)
    have hc2 : dec.opinion = "LONG" ∧ d.change_24h > 10 ∧ d.ob.sentiment = "BEARISH" ∧
        d.struct.raw_breakdown = true := ⟨hop, hch, hs, hrb⟩
    simp only [DecisionEngine.applyFilters]
    rw [if_neg hc1, if_pos hc2]

/-- Witness for C2: a STRONG_ASK-style SHORT decision with 24h change −15,
BULLISH orderbook sentiment and no raw breakdown is flipped to LONG with the
prefixed reason and `fake_breakdown` forced. -/
theorem C2_anti_filters_witness :
    DecisionEngine.applyFilters
      ⟨-15, ⟨"NEUTRAL", "BULLISH", 0⟩, ⟨"NEUTRAL", "NO_SQUEEZE", 0⟩, ⟨false, false⟩,
       ⟨false, false⟩, ⟨false, false, false, false, false, false, false, false⟩, "FLAT",
       ⟨false, false, 0, 0, 0, 0⟩, ⟨false, false, 0⟩⟩
      ⟨"SHORT", "STRONG_SELL_PRESSURE", "HIGH", "📊 EXTREME ASK DOMINANCE", false, false⟩ =
      ⟨"LONG", "ANTI_OVERSOLD_SHORT_STRONG_SELL_PRESSURE", "HIGH",
       "📊 EXTREME ASK DOMINANCE", false, true⟩ := by
  have h := C2_anti_filters.2.1
    ⟨-15, ⟨"NEUTRAL", "BULLISH", 0⟩, ⟨"NEUTRAL", "NO_SQUEEZE", 0⟩, ⟨false, false⟩,
     ⟨false, false⟩, ⟨false, false, false, false, false, false, false, false⟩, "FLAT",
     ⟨false, false, 0, 0, 0, 0⟩, ⟨false, false, 0⟩⟩
    ⟨"SHORT", "STRONG_SELL_PRESSURE", "HIGH", "📊 EXTREME ASK DOMINANCE", false, false⟩
    rfl (by norm_num) rfl rfl
  exact h

/-- Claim C10: although the two anti-countertrend filters are independent if
checks and the first flip satisfies the second's opinion precondition, their
24h-change preconditions are disjoint, so at most one rewrite happens: the
result is the input decision or exactly one of the two single-prefix
rewrites, never a double flip or double prefix. -/
theorem C10_filters_never_double_flip :
    ∀ (d : DecisionData) (dec : Decision),
      DecisionEngine.applyFilters d dec = dec ∨
      DecisionEngine.applyFilters d dec =
        { dec with opinion := "LONG", reason := "ANTI_OVERSOLD_SHORT_" ++ dec.reason,
                   fake_breakdown := true } ∨
      DecisionEngine.applyFilters d dec =
        { dec with opinion := "SHORT", reason := "ANTI_OVERBOUGHT_LONG_" ++ dec.reason,
                   valid_breakdown := true } :=
  applyFilters_cases

/-- Claim C6: an orderbook ratio of exactly 2.0 classifies as BID (not
STRONG_BID) and exactly 1.2 as NEUTRAL (not BID); all four thresholds 0.5,
0.8, 1.2, 2.0 are strict, with the higher thresholds checked first:
ratio > 2.0 → STRONG_BID/BULLISH/+40; > 1.2 → BID/BULLISH_BIAS/+20;
< 0.5 → STRONG_ASK/BEARISH/−40; < 0.8 → ASK/BEARISH_BIAS/−20;
otherwise NEUTRAL/NEUTRAL/0. -/
theorem C6_orderbook_thresholds :
    getOrderbookSentiment 2 = ⟨"BID", "BULLISH_BIAS", 20⟩ ∧
    getOrderbookSentiment (12 / 10) = ⟨"NEUTRAL", "NEUTRAL", 0⟩ ∧
    getOrderbookSentiment (1 / 2) = ⟨"ASK", "BEARISH_BIAS", -20⟩ ∧
    getOrderbookSentiment (8 / 10) = ⟨"NEUTRAL", "NEUTRAL", 0⟩ ∧
    (∀ r : ℚ,
      (2 < r → getOrderbookSentiment r = ⟨"STRONG_BID", "BULLISH", 40⟩) ∧
      (12 / 10 < r → r ≤ 2 → getOrderbookSentiment r = ⟨"BID", "BULLISH_BIAS", 20⟩) ∧
      (r < 1 / 2 → getOrderbookSentiment r = ⟨"STRONG_ASK", "BEARISH", -40⟩) ∧
      (1 / 2 ≤ r → r < 8 / 10 → getOrderbookSentiment r = ⟨"ASK", "BEARISH_BIAS", -20⟩) ∧
      (8 / 10 ≤ r → r ≤ 12 / 10 → getOrderbookSentiment r = ⟨"NEUTRAL", "NEUTRAL", 0⟩)) := by
  refine ⟨by norm_num [getOrderbookSentiment], by norm_num [getOrderbookSentiment],
    by norm_num [getOrderbookSentiment], by norm_num [getOrderbookSentiment], ?_⟩
  intro r
  refine ⟨?_, ?_, ?_, ?_, ?_⟩
  · intro h
    unfold getOrderbookSentiment
    split_ifs <;> first | rfl | (exfalso; linarith)
  · intro h1 h2
    unfold getOrderbookSentiment
    split_ifs <;> first | rfl | (exfalso; linarith)
  · intro h
    unfold getOrderbookSentiment
    split_ifs <;> first | rfl | (exfalso; linarith)
  · intro h1 h2
    unfold getOrderbookSentiment
    split_ifs <;> first | rfl | (exfalso; linarith)
  · intro h1 h2
    unfold getOrderbookSentiment
    split_ifs <;> first | rfl | (exfalso; linarith)

/-- Witness for C6: the interval characterization evaluated at ratio 3
(STRONG_BID) and ratio 0.6 (ASK). -/
theorem C6_orderbook_thresholds_witness :
    getOrderbookSentiment 3 = ⟨"STRONG_BID", "BULLISH", 40⟩ ∧
    getOrderbookSentiment (6 / 10) = ⟨"ASK", "BEARISH_BIAS", -20⟩ :=
  ⟨(C6_orderbook_thresholds.2.2.2.2 3).1 (by norm_num),
   (C6_orderbook_thresholds.2.2.2.2 (6 / 10)).2.2.2.1 (by norm_num) (by norm_num)⟩

/-- Claim C7: every division site is guarded: zero summed top-5 ask volume
gives orderbook ratio 99.0 (zero bid volume gives 0.01, otherwise the ratio
is capped at 99.0); zero index price gives premium 0; zero sells among the
last 20 trades gives trade-flow ratio 99.0. -/
theorem C7_division_guards :
    (∀ bids asks : List (ℚ × ℚ), sumTop5 asks = 0 → getOrderbookRatio bids asks = 99) ∧
    (∀ bids asks : List (ℚ × ℚ), sumTop5 asks ≠ 0 → sumTop5 bids = 0 →
      getOrderbookRatio bids asks = 1 / 100) ∧
    (∀ bids asks : List (ℚ × ℚ), sumTop5 asks ≠ 0 → sumTop5 bids ≠ 0 →
      getOrderbookRatio bids asks = min (roundTo 2 (sumTop5 bids / sumTop5 asks)) 99 ∧
      getOrderbookRatio bids asks ≤ 99) ∧
    (∀ mark funding : ℚ, (getFundingPremium mark 0 funding).premium = 0) ∧
    (∀ trades : List Bool, trades ≠ [] →
      trades.length - (trades.filter (fun isBuyerMaker => !isBuyerMaker)).length = 0 →
      getTradesFlow trades =
        some ⟨(trades.filter (fun isBuyerMaker => !isBuyerMaker)).length, 0, 99⟩) := by
  refine ⟨?_, ?_, ?_, ?_, ?_⟩
  · intro bids asks h
    simp only [getOrderbookRatio]
    rw [if_pos h]
  · intro bids asks h1 h2
    simp only [getOrderbookRatio]
    rw [if_neg h1, if_pos h2]
  · intro bids asks h1 h2
    simp only [getOrderbookRatio]
    rw [if_neg h1, if_neg h2]
    exact ⟨rfl, min_le_right _ _⟩
  · intro mark funding
    simp [getFundingPremium, roundTo]
  · intro trades hne hz
    cases trades with
    | nil => exact absurd rfl hne
    | cons t ts =>
      simp only [getTradesFlow]
      rw [hz]
      norm_num [roundTo, round_eq]

/-- Witness for C7: empty asks give ratio 99, zero index price gives premium
0, and an all-buy trade list gives trade ratio 99. -/
theorem C7_division_guards_witness :
    getOrderbookRatio [(100, 50)] [] = 99 ∧
    (getFundingPremium 5 0 0).premium = 0 ∧
    getTradesFlow [false, false] = some ⟨2, 0, 99⟩ := by
  refine ⟨C7_division_guards.1 [(100, 50)] [] (by decide),
    C7_division_guards.2.2.2.1 5 0, ?_⟩
  have h := C7_division_guards.2.2.2.2 [false, false] (by decide) (by decide)
  simpa using h

/-- Claim C9 counterexample: for closes = [100,…,100,110] (10 candles) the
short mean (mean of the last 5 closes) is 102, not 104 as the claim states,
and the slope is 1/101 ≈ 0.0099, not ≈ 0.0297 (= 3/101). -/
theorem C9_counterexample :
    emaShort [100, 100, 100, 100, 100, 100, 100, 100, 100, 110] = 102 ∧
    ¬(emaShort [100, 100, 100, 100, 100, 100, 100, 100, 100, 110] = 104) ∧
    (getEmaTrend [100, 100, 100, 100, 100, 100, 100, 100, 100, 110]).1 = 1 / 101 ∧
    ¬((getEmaTrend [100, 100, 100, 100, 100, 100, 100, 100, 100, 110]).1 = 3 / 101) := by
  refine ⟨by norm_num [emaShort, listMean, lastN], by norm_num [emaShort, listMean, lastN],
    by norm_num [getEmaTrend, emaShort, emaLong, listMean, lastN],
    by norm_num [getEmaTrend, emaShort, emaLong, listMean, lastN]⟩

/-- Claim C9 (amended): for closes = [100,…,100,110] the short mean is 102,
the long mean 101, the slope (102−101)/101 = 1/101 ≈ 0.0099, which still
exceeds the 0.0005 threshold, so the returned trend label is UP. -/
theorem C9_trend_example :
    emaShort [100, 100, 100, 100, 100, 100, 100, 100, 100, 110] = 102 ∧
    emaLong [100, 100, 100, 100, 100, 100, 100, 100, 100, 110] = 101 ∧
    getEmaTrend [100, 100, 100, 100, 100, 100, 100, 100, 100, 110] = (1 / 101, "UP") ∧
    (5 / 10000 : ℚ) < 1 / 101 := by
  refine ⟨by norm_num [emaShort, listMean, lastN], by norm_num [emaLong, listMean, lastN],
    by norm_num [getEmaTrend, emaShort, emaLong, listMean, lastN], by norm_num⟩

/-- Claim C3 counterexample: for closes = [1,1,1,1,2] (five closes, fewer
than the six the claim requires for the 5-candle horizon) the claim predicts
a 5m change of 0.0, but the code computes (2−1)/1·100 = 100 from
`closes[-5]`, the close four candles back. -/
theorem C3_counterexample :
    getPriceChanges [1, 1, 1, 1, 2] = ⟨100, 100, 0⟩ ∧ ((100 : ℚ) ≠ 0) := by
  constructor
  · norm_num [getPriceChanges, back]
  · norm_num

/-- Claim C3 (amended): the 1-candle change uses the close 1 candle back
(`closes[-2]`, needing ≥ 2 closes), but the "5m" change uses the close only
4 candles back (`closes[-5]`, needing just ≥ 5 closes) and the "15m" change
the close 14 candles back (`closes[-15]`, needing just ≥ 15 closes); each is
0.0 when its guard (length and non-zero denominator) fails.  Positions are
stated via the reversed list: `closes.reverse.getD k 0` is the close `k`
candles back. -/
theorem C3_price_changes (closes : List ℚ) :
    ((2 ≤ closes.length ∧ closes.reverse.getD 1 0 ≠ 0 →
      (getPriceChanges closes).m1 =
        (closes.reverse.getD 0 0 - closes.reverse.getD 1 0) / closes.reverse.getD 1 0 * 100) ∧
     (¬(2 ≤ closes.length ∧ closes.reverse.getD 1 0 ≠ 0) → (getPriceChanges closes).m1 = 0)) ∧
    ((5 ≤ closes.length ∧ closes.reverse.getD 4 0 ≠ 0 →
      (getPriceChanges closes).m5 =
        (closes.reverse.getD 0 0 - closes.reverse.getD 4 0) / closes.reverse.getD 4 0 * 100) ∧
     (¬(5 ≤ closes.length ∧ closes.reverse.getD 4 0 ≠ 0) → (getPriceChanges closes).m5 = 0)) ∧
    ((15 ≤ closes.length ∧ closes.reverse.getD 14 0 ≠ 0 →
      (getPriceChanges closes).m15 =
        (closes.reverse.getD 0 0 - closes.reverse.getD 14 0) / closes.reverse.getD 14 0 * 100) ∧
     (¬(15 ≤ closes.length ∧ closes.reverse.getD 14 0 ≠ 0) → (getPriceChanges closes).m15 = 0)) := by
  refine ⟨⟨?_, ?_⟩, ⟨?_, ?_⟩, ⟨?_, ?_⟩⟩
  · rintro ⟨hlen, hz⟩
    have hb2 : back closes 2 = closes.reverse.getD 1 0 :=
      back_eq_reverse_getD closes 2 (by norm_num) hlen
    have hb1 : back closes 1 = closes.reverse.getD 0 0 :=
      back_eq_reverse_getD closes 1 (by norm_num) (by omega)
    simp only [getPriceChanges]
    rw [if_pos ⟨hlen, by rw [hb2]; exact hz⟩, hb2, hb1]
  · intro hn
    simp only [getPriceChanges]
    rw [if_neg]
    rintro ⟨h1, h2⟩
    exact hn ⟨h1, by rw [← back_eq_reverse_getD closes 2 (by norm_num) h1]; exact h2⟩
  · rintro ⟨hlen, hz⟩
    have hb5 : back closes 5 = closes.reverse.getD 4 0 :=
      back_eq_reverse_getD closes 5 (by norm_num) hlen
    have hb1 : back closes 1 = closes.reverse.getD 0 0 :=
      back_eq_reverse_getD closes 1 (by norm_num) (by omega)
    simp only [getPriceChanges]
    rw [if_pos ⟨hlen, by rw [hb5]; exact hz⟩, hb5, hb1]
  · intro hn
    simp only [getPriceChanges]
    rw [if_neg]
    rintro ⟨h1, h2⟩
    exact hn ⟨h1, by rw [← back_eq_reverse_getD closes 5 (by norm_num) h1]; exact h2⟩
  · rintro ⟨hlen, hz⟩
    have hb15 : back closes 15 = closes.reverse.getD 14 0 :=
      back_eq_reverse_getD closes 15 (by norm_num) hlen
    have hb1 : back closes 1 = closes.reverse.getD 0 0 :=
      back_eq_reverse_getD closes 1 (by norm_num) (by omega)
    simp only [getPriceChanges]
    rw [if_pos ⟨hlen, by rw [hb15]; exact hz⟩, hb15, hb1]
  · intro hn
    simp only [getPriceChanges]
    rw [if_neg]
    rintro ⟨h1, h2⟩
    exact hn ⟨h1, by rw [← back_eq_reverse_getD closes 15 (by norm_num) h1]; exact h2⟩

/-- Witness for C3: the 5m branch evaluated on [1,1,1,1,2]: five closes
suffice and the change is computed from the close four candles back. -/
theorem C3_price_changes_witness :
    (5 ≤ ([1, 1, 1, 1, 2] : List ℚ).length ∧ ([1, 1, 1, 1, 2] : List ℚ).reverse.getD 4 0 ≠ 0) ∧
    (getPriceChanges [1, 1, 1, 1, 2]).m5 =
      (([1, 1, 1, 1, 2] : List ℚ).reverse.getD 0 0 - ([1, 1, 1, 1, 2] : List ℚ).reverse.getD 4 0) /
        ([1, 1, 1, 1, 2] : List ℚ).reverse.getD 4 0 * 100 :=
  ⟨⟨by norm_num, by norm_num⟩,
   (C3_price_changes [1, 1, 1, 1, 2]).2.1.1 ⟨by norm_num, by norm_num⟩⟩

/-- Claim C4 counterexample: with lows [10, 5] and current close 7,
`analyze_symbol` reports raw_breakdown = false (7 is not below min(10, 5) = 5,
the window including the latest candle), yet 7 IS below the recent low of the
window preceding the latest candle (10); with highs [5, 40] it reports
failed_high = true (7 < 40), yet 7 is not below the preceding-window high 5.
So the claim's excluded-latest-candle window does not describe the code. -/
theorem C4_counterexample :
    (analyzeSymbol "X" (some 7) none none none none (some ⟨[5, 40], [10, 5], [9, 7]⟩)).map
      Snapshot.raw_breakdown = some false ∧
    (7 : ℚ) < prevLowExcludingLatest [10, 5] ∧
    (analyzeSymbol "X" (some 7) none none none none (some ⟨[5, 40], [10, 5], [9, 7]⟩)).map
      Snapshot.failed_high = some true ∧
    ¬((7 : ℚ) < prevHighExcludingLatest [5, 40]) := by
  have hg : ¬(([5, 40] : List ℚ) = [] ∨ ([10, 5] : List ℚ) = []) := by simp
  refine ⟨?_, ?_, ?_, ?_⟩
  · simp only [analyzeSymbol, Option.getD]
    rw [if_neg hg]
    simp only [Option.map_some']
    norm_num [back, prevLow, prevHigh, lastN, listMin, listMax]
  · norm_num [prevLowExcludingLatest, prevLow, lastN, listMin, List.dropLast]
  · simp only [analyzeSymbol, Option.getD]
    rw [if_neg hg]
    simp only [Option.map_some']
    norm_num [back, prevLow, prevHigh, lastN, listMin, listMax]
  · norm_num [prevHighExcludingLatest, prevHigh, lastN, listMax, List.dropLast]

/-- Claim C4 (amended): the `raw_breakdown` boolean shared by the pattern
detector, decision rules and filters is the current close strictly below the
recent low over the last-10 window that INCLUDES the latest candle (whose low
is a member of that window), and `failed_high` is the analogous comparison
against the recent high of the same inclusive window. -/
theorem C4_breakdown_window (symbol : String) (price : ℚ) (c o : Option ℚ)
    (t : Option TradesFlow) (pd : Option PremiumData) (k : Klines)
    (hh : k.highs ≠ []) (hl : k.lows ≠ []) (hc : k.closes ≠ []) :
    ∃ s, analyzeSymbol symbol (some price) c o t pd (some k) = some s ∧
      s.raw_breakdown = decide (k.closes.getLastD 0 < prevLow k.lows) ∧
      s.failed_high = decide (k.closes.getLastD 0 < prevHigh k.highs) ∧
      k.lows.getLastD 0 ∈ lastN 10 k.lows ∧
      k.highs.getLastD 0 ∈ lastN 10 k.highs := by
  have hcc : (if k.closes = [] then price else back k.closes 1) = k.closes.getLastD 0 := by
    rw [if_neg hc]
    exact back_one_eq_getLastD k.closes hc
  simp only [analyzeSymbol, Option.getD]
  rw [if_neg (by simp [hh, hl]), hcc]
  exact ⟨_, rfl, rfl, rfl, getLastD_mem_lastN k.lows hl 10 (by norm_num),
    getLastD_mem_lastN k.highs hh 10 (by norm_num)⟩

/-- Witness for C4 (amended): evaluated at lows [10, 5], highs [5, 40],
closes [9, 7]: raw_breakdown is 7 < 5 = false, failed_high is 7 < 40 = true,
and the latest candle's low and high are in the windows. -/
theorem C4_breakdown_window_witness :
    ∃ s, analyzeSymbol "X" (some 7) none none none none (some ⟨[5, 40], [10, 5], [9, 7]⟩) =
        some s ∧
      s.raw_breakdown = decide ((([9, 7] : List ℚ)).getLastD 0 < prevLow [10, 5]) ∧
      s.failed_high = decide ((([9, 7] : List ℚ)).getLastD 0 < prevHigh [5, 40]) ∧
      ([10, 5] : List ℚ).getLastD 0 ∈ lastN 10 [10, 5] ∧
      ([5, 40] : List ℚ).getLastD 0 ∈ lastN 10 [5, 40] :=
  C4_breakdown_window "X" 7 none none none none ⟨[5, 40], [10, 5], [9, 7]⟩
    (by simp) (by simp) (by simp)

/-- Claim C5 (implicit): whenever the closes and lows lists are non-empty and
the latest candle is well-formed (its low ≤ its close), the `raw_breakdown`
computed by `analyze_symbol` — current close < minimum of the last 10 lows, a
window including the latest candle's low — is necessarily false; consequently
`overbought_reversal` and `extreme_overbought_cascade` never fire, and the
anti-overbought filter never rewrites the decision (at most the anti-oversold
rewrite can apply). -/
theorem C5_raw_breakdown_never_true (change ob : ℚ) (trades : TradesFlow) (premium : ℚ)
    (highs lows closes : List ℚ) (price : ℚ)
    (hc : closes ≠ []) (hl : lows ≠ [])
    (hwf : lows.getLastD 0 ≤ closes.getLastD 0) :
    (decisionDataOf change ob trades premium highs lows closes price).struct.raw_breakdown =
      false ∧
    (decisionDataOf change ob trades premium highs lows closes price).patterns.overbought_reversal =
      false ∧
    (decisionDataOf change ob trades premium highs lows
      closes price).patterns.extreme_overbought_cascade = false ∧
    (DecisionEngine.evaluate (decisionDataOf change ob trades premium highs lows closes price) =
       DecisionEngine.evaluateBase
         (decisionDataOf change ob trades premium highs lows closes price) ∨
     DecisionEngine.evaluate (decisionDataOf change ob trades premium highs lows closes price) =
       { DecisionEngine.evaluateBase
           (decisionDataOf change ob trades premium highs lows closes price) with
         opinion := "LONG",
         reason := "ANTI_OVERSOLD_SHORT_" ++
           (DecisionEngine.evaluateBase
             (decisionDataOf change ob trades premium highs lows closes price)).reason,
         fake_breakdown := true }) := by
  have hcc : (if closes = [] then price else back closes 1) = closes.getLastD 0 := by
    rw [if_neg hc]
    exact back_one_eq_getLastD closes hc
  have hraw : ¬((if closes = [] then price else back closes 1) < prevLow lows) := by
    rw [hcc]
    intro hlt
    exact absurd (lt_of_le_of_lt (le_trans (prevLow_le_getLastD lows hl) hwf) hlt)
      (lt_irrefl _)
  have hrawd : (decisionDataOf change ob trades premium highs lows
      closes price).struct.raw_breakdown = false := by
    simp only [decisionDataOf]
    exact decide_eq_false hraw
  refine ⟨hrawd, ?_, ?_, ?_⟩
  · simp only [decisionDataOf, detectReversalPatterns]
    simp [hraw]
  · simp only [decisionDataOf, detectReversalPatterns]
    simp [hraw]
  · exact applyFilters_of_not_raw_breakdown _ _ hrawd

/-- Witness for C5: with lows [1, 1] and closes [1, 1] (latest low 1 ≤ latest
close 1), raw_breakdown and the overbought flags are false and the decision
is the unfiltered base decision or its anti-oversold rewrite. -/
theorem C5_raw_breakdown_never_true_witness :
    ((([1, 1] : List ℚ)).getLastD 0 ≤ (([1, 1] : List ℚ)).getLastD 0) ∧
    ((decisionDataOf 0 1 ⟨0, 0, 1⟩ 0 [1, 1] [1, 1] [1, 1] 1).struct.raw_breakdown = false ∧
     (decisionDataOf 0 1 ⟨0, 0, 1⟩ 0 [1, 1] [1, 1] [1, 1] 1).patterns.overbought_reversal =
       false ∧
     (decisionDataOf 0 1 ⟨0, 0, 1⟩ 0 [1, 1] [1, 1] [1, 1] 1).patterns.extreme_overbought_cascade =
       false ∧
     (DecisionEngine.evaluate (decisionDataOf 0 1 ⟨0, 0, 1⟩ 0 [1, 1] [1, 1] [1, 1] 1) =
        DecisionEngine.evaluateBase (decisionDataOf 0 1 ⟨0, 0, 1⟩ 0 [1, 1] [1, 1] [1, 1] 1) ∨
      DecisionEngine.evaluate (decisionDataOf 0 1 ⟨0, 0, 1⟩ 0 [1, 1] [1, 1] [1, 1] 1) =
        { DecisionEngine.evaluateBase (decisionDataOf 0 1 ⟨0, 0, 1⟩ 0 [1, 1] [1, 1] [1, 1] 1) with
          opinion := "LONG",
          reason := "ANTI_OVERSOLD_SHORT_" ++
            (DecisionEngine.evaluateBase
              (decisionDataOf 0 1 ⟨0, 0, 1⟩ 0 [1, 1] [1, 1] [1, 1] 1)).reason,
          fake_breakdown := true })) :=
  ⟨le_refl _,
   C5_raw_breakdown_never_true 0 1 ⟨0, 0, 1⟩ 0 [1, 1] [1, 1] [1, 1] 1
     (by simp) (by simp) (le_refl _)⟩

/-- Claim C8: with the price absent, `analyze_symbol` returns absence (no
snapshot), not a partial or error-tagged one; with the price present and
every other input absent, each is replaced by its default (24h change 0.0,
orderbook ratio 1.0, trades buys = 0 / sells = 0 / ratio 1.0, premium 0.0,
synthetic two-candle klines around the price) and a complete snapshot is
still produced (here carrying the low-confidence default decision). -/
theorem C8_missing_inputs :
    (∀ (symbol : String) (c o : Option ℚ) (t : Option TradesFlow) (pd : Option PremiumData)
      (k : Option Klines), analyzeSymbol symbol none c o t pd k = none) ∧
    (∀ (symbol : String) (p : ℚ), ∃ s,
      analyzeSymbol symbol (some p) none none none none none = some s ∧
      s.change_24h = 0 ∧ s.ob_ratio = 1 ∧ s.buys = 0 ∧ s.sells = 0 ∧ s.buy_sell_ratio = 1 ∧
      s.premium = 0 ∧ s.funding_rate = 0 ∧ s.ema_trend = "FLAT" ∧ s.change_5m = 0 ∧
      s.raw_breakdown = false ∧
      s.opinion = "NEUTRAL" ∧ s.reason = "NO_CLEAR_SIGNAL" ∧ s.confidence = "LOW") := by
  constructor
  · intro symbol c o t pd k
    rfl
  · intro symbol p
    have hdec : DecisionEngine.evaluate
        (decisionDataOf 0 1 ⟨0, 0, 1⟩ 0 [p * (101 / 100), p] [p * (99 / 100), p] [p, p] p) =
        noSignalDecision := by
      norm_num [decisionDataOf, DecisionEngine.evaluate, DecisionEngine.evaluateBase,
        DecisionEngine.applyFilters, detectReversalPatterns, detectSqueezeSetups,
        detectLiquidityBait, getOrderbookSentiment, getPremiumSentiment, getEmaTrend,
        getPriceChanges, noSignalDecision, back, prevLow, prevHigh, lastN, listMin, listMax]
      simp
    have hg : ¬(([p * (101 / 100), p] : List ℚ) = [] ∨ ([p * (99 / 100), p] : List ℚ) = []) := by
      simp
    simp only [analyzeSymbol, Option.getD_none, orQ]
    rw [if_neg hg]
    refine ⟨_, rfl, ?_, rfl, rfl, rfl, rfl, rfl, rfl, ?_, ?_, ?_, ?_, ?_, ?_⟩
    · norm_num [roundTo]
    · norm_num [getEmaTrend]
    · norm_num [getPriceChanges, roundTo, back]
    · have h1 : (if ([p, p] : List ℚ) = [] then p else back [p, p] 1) = p := by
        rw [if_neg (by simp)]
        norm_num [back]
      have h2 : prevLow [p * (99 / 100), p] = min (p * (99 / 100)) p := by
        norm_num [prevLow, lastN, listMin]
      rw [h1, h2]
      exact decide_eq_false
        (fun hlt => absurd (lt_of_lt_of_le hlt (min_le_right _ _)) (lt_irrefl p))
    · rw [hdec]
      rfl
    · rw [hdec]
      rfl
    · rw [hdec]
      rfl

end LiquidationHunter
